import Mathlib

/-!
Verification of the Hong-Kong sunset-cloud synthetic data generators.

The repository has two generative pipelines:

* `HKODataCollector.generate_realistic_sunset_data` in `hko_data_collector.py`
  (called the *collector* pipeline below), and
* `HongKongSunsetClouds.generate_realistic_data` in `hongkong_sunset_clouds.py`
  (called the *viz* pipeline below).

Embedding conventions:

* All numeric values are rationals (`ℚ`).  The Python floats only enter through
  literal decimal constants, which are exact in `ℚ`.
* The shared NumPy pseudorandom stream (seeded once with `np.random.seed(42)`)
  is modelled as an abstract stream `σ : ℕ → ℚ`: the `n`-th call to
  `np.random.*` during a run reads slot `n`.  Each slot holds the call's
  *standardized* draw and the call applies the documented affine transform:
  `np.random.normal(0, s)` is `s * σ n` (standard normal draw in the slot),
  `np.random.uniform(a, b)` is `a + (b - a) * σ n` (unit uniform in the slot),
  `np.random.beta(a, b)` is `σ n` (a Beta sample, a value in `[0,1]`),
  `np.random.exponential(m)` is `m * σ n` (unit exponential in the slot),
  `np.random.gamma (k, θ)` is `σ n` (a Gamma sample, a nonnegative value),
  `np.random.random()` is `σ n` (unit uniform).
  Support facts (e.g. a Beta draw lies in `[0,1]`, an exponential draw is
  nonnegative) are taken as hypotheses where a statement needs them.
* The sinusoidal climate phases `sin(2π(year-start)/cycle)` are transcendental,
  so they are abstracted as per-year phase tables `ℕ → ℚ` passed to the
  generators; at `year = start_year` the true phase is `sin 0 = 0`, which is
  what concrete instantiations below use.
* Dates are proleptic-Gregorian triples; `pd.date_range(Jan 1 s, Dec 31 e)`
  is embedded as the year-by-year, month-by-month, day-by-day enumeration.
-/

/-- `clamp(x, lo, hi) = max(lo, min(hi, x))`, the saturation function the spec
names; the Python sources write `max(lo, min(hi, x))` inline. -/
def clamp (x lo hi : ℚ) : ℚ := max lo (min hi x)

/-! ### Calendar model (`pd.date_range`, `datetime`) -/

/-- A calendar date. -/
structure Date where
  year : ℕ
  month : ℕ
  day : ℕ
deriving Repr, DecidableEq

/-- Gregorian leap-year rule used by `pandas`/`datetime`. -/
def isLeap (y : ℕ) : Bool := y % 4 = 0 && (y % 100 != 0 || y % 400 = 0)

/-- Number of days of month `m` (1-based) of year `y`. -/
def daysInMonth (y m : ℕ) : ℕ :=
  if m = 2 then (if isLeap y then 29 else 28)
  else if m = 4 ∨ m = 6 ∨ m = 9 ∨ m = 11 then 30
  else 31

/-- The days of one calendar month, in order. -/
def monthDates (y m : ℕ) : List Date :=
  (List.range (daysInMonth y m)).map (fun i => ⟨y, m, i + 1⟩)

/-- The days of one calendar year, in order. -/
def yearDates (y : ℕ) : List Date :=
  (List.range 12).flatMap (fun j => monthDates y (j + 1))

/-- `pd.date_range(start=datetime(s,1,1), end=datetime(e,12,31), freq='D')`:
every calendar day from Jan 1 of year `s` to Dec 31 of year `e`, inclusive. -/
def dateRange (s e : ℕ) : List Date :=
  (List.range (e + 1 - s)).flatMap (fun i => yearDates (s + i))

/-- A structurally valid Gregorian date. -/
def validDate (d : Date) : Prop :=
  1 ≤ d.month ∧ d.month ≤ 12 ∧ 1 ≤ d.day ∧ d.day ≤ daysInMonth d.year d.month

instance (d : Date) : Decidable (validDate d) := by unfold validDate; infer_instance

/-- Chronological (lexicographic) strict order on dates. -/
def dateLt (a b : Date) : Prop :=
  a.year < b.year ∨ (a.year = b.year ∧
    (a.month < b.month ∨ (a.month = b.month ∧ a.day < b.day)))

instance (a b : Date) : Decidable (dateLt a b) := by unfold dateLt; infer_instance

/-- `date.timetuple().tm_yday`: ordinal day within the year. -/
def dayOfYear (d : Date) : ℕ :=
  ((List.range (d.month - 1)).map (fun j => daysInMonth d.year (j + 1))).sum + d.day

/-! ### Static climate tables (`fetch_current_conditions`,
`get_historical_weather_patterns`) -/

/-- `hk_climate_data['monthly_sunset_probability']` (months outside 1..12 never
arise from a calendar date; the dictionary lookup is total on 1..12). -/
def monthly_sunset_probability : ℕ → ℚ
  | 1 => 0.25 | 2 => 0.28 | 3 => 0.20 | 4 => 0.15
  | 5 => 0.12 | 6 => 0.08 | 7 => 0.10 | 8 => 0.12
  | 9 => 0.18 | 10 => 0.35 | 11 => 0.40 | 12 => 0.30
  | _ => 0

/-- `hk_climate_data['average_temperature'][month-1]`. -/
def average_temperature : ℕ → ℚ
  | 1 => 17.1 | 2 => 18.3 | 3 => 21.8 | 4 => 25.8
  | 5 => 29.1 | 6 => 31.2 | 7 => 32.1 | 8 => 31.9
  | 9 => 30.1 | 10 => 26.8 | 11 => 22.5 | 12 => 18.7
  | _ => 0

/-- `hk_climate_data['average_humidity'][month-1]`. -/
def average_humidity : ℕ → ℚ
  | 1 => 72 | 2 => 78 | 3 => 82 | 4 => 84
  | 5 => 85 | 6 => 83 | 7 => 82 | 8 => 81
  | 9 => 77 | 10 => 73 | 11 => 68 | 12 => 69
  | _ => 0

/-- `hk_climate_data['average_pressure'][month-1]`. -/
def average_pressure : ℕ → ℚ
  | 1 => 1018 | 2 => 1016 | 3 => 1013 | 4 => 1009
  | 5 => 1006 | 6 => 1004 | 7 => 1004 | 8 => 1006
  | 9 => 1011 | 10 => 1016 | 11 => 1019 | 12 => 1020
  | _ => 0

/-- Month sets of `patterns['seasonal_factors']`. -/
def springMonths : List ℕ := [3, 4, 5]

/-- Summer months of `patterns['seasonal_factors']`. -/
def summerMonths : List ℕ := [6, 7, 8]

/-- Autumn months of `patterns['seasonal_factors']`. -/
def autumnMonths : List ℕ := [9, 10, 11]

/-- Winter months of `patterns['seasonal_factors']`. -/
def winterMonths : List ℕ := [12, 1, 2]

/-- The first-matching-season `cloud_factor` loop of
`generate_realistic_sunset_data` (default `1.0` when no season matches). -/
def season_factor (m : ℕ) : ℚ :=
  if m ∈ springMonths then 0.6
  else if m ∈ summerMonths then 0.4
  else if m ∈ autumnMonths then 1.2
  else if m ∈ winterMonths then 1.0
  else 1.0

/-! ### Collector pipeline: per-day probability -/

/-- Lines 98–120 of `hko_data_collector.py`: the per-day occurrence
probability.  `enso` and `sunspot` are the values of
`sin(2π(year-start)/3.5)` and `sin(2π(year-start)/11)`; `z` is the standard
normal draw behind `daily_weather = np.random.normal(0, 0.2)`. -/
def collectorProb (sy y m : ℕ) (enso sunspot z : ℚ) : ℚ :=
  let base_prob := monthly_sunset_probability m
  let sf := season_factor m
  let urbanization_trend : ℚ := 1 + 0.01 * ((y : ℚ) - (sy : ℚ)) / 20
  let daily_weather := 0.2 * z
  let final_prob := base_prob * sf * urbanization_trend
  let final_prob := final_prob * (1 + 0.1 * enso + 0.05 * sunspot + daily_weather)
  max 0 (min 0.8 final_prob)

/-! ### Collector pipeline: per-day record -/

/-- One row of the collector pipeline's DataFrame (the dictionary appended to
`data_list` at lines 171–188 of `hko_data_collector.py`). -/
structure Obs where
  date : Date
  year : ℕ
  month : ℕ
  day_of_year : ℕ
  has_sunset_clouds : Bool
  intensity : ℚ
  duration_minutes : ℚ
  coverage_percent : ℚ
  color_richness : ℚ
  temperature_c : ℚ
  humidity_percent : ℚ
  pressure_hpa : ℚ
  visibility_km : ℚ
  wind_speed_kmh : ℚ
  season_factor : ℚ
  enso_phase : ℚ
deriving Repr, DecidableEq

/-- Lines 131–136 of `hko_data_collector.py`: the seasonal multiplier drawn
for an occurred day; `u` is the unit-uniform draw behind `np.random.uniform`,
so `np.random.uniform(a, b) = a + (b - a) * u`. -/
def seasonMult (m : ℕ) (u : ℚ) : ℚ :=
  if m = 10 ∨ m = 11 ∨ m = 12 ∨ m = 1 then 1.2 + 0.3 * u
  else if m = 6 ∨ m = 7 ∨ m = 8 then 0.6 + 0.3 * u
  else 0.8 + 0.3 * u

/-- Line 123: `has_sunset_clouds = np.random.random() < final_prob`.  The
day's draws start at stream position `p`: slot `p` is the probability noise,
slot `p + 1` the occurrence uniform. -/
def collectorOccurred (σ : ℕ → ℚ) (phE phS : ℕ → ℚ) (sy p : ℕ) (d : Date) : Bool :=
  decide (σ (p + 1) < collectorProb sy d.year d.month (phE d.year) (phS d.year) (σ p))

/-- Stream position of the day's first weather draw (line 154): the occurred
branch consumes five extra draws (beta, uniform, exponential, beta, uniform)
before the weather block. -/
def collectorWStart (σ : ℕ → ℚ) (phE phS : ℕ → ℚ) (sy p : ℕ) (d : Date) : ℕ :=
  p + (if collectorOccurred σ phE phS sy p d then 7 else 2)

/-- Lines 92–188 of `hko_data_collector.py`: one iteration of the generation
loop.  Returns the appended row and the stream position of the next day.  The
source assigns the four dependent attributes in a single `if/else`; here each
attribute carries the same `if` individually, which is the same function.
The wind draw is `np.random.gamma(3, 4)` for months 10–2 and
`np.random.gamma(2, 3)` otherwise — both branches read the day's single
gamma slot, so the abstracted value is the same stream slot either way. -/
def collectorDay (σ : ℕ → ℚ) (phE phS : ℕ → ℚ) (sy p : ℕ) (d : Date) : Obs × ℕ :=
  let occurred := collectorOccurred σ phE phS sy p d
  let w := collectorWStart σ phE phS sy p d
  let intensity : ℚ := if occurred then (σ (p + 2) * 10) * seasonMult d.month (σ (p + 3)) else 0
  let duration : ℚ := if occurred then 15 + 25 * σ (p + 4) else 0
  let coverage : ℚ := if occurred then σ (p + 5) * 100 else 0
  let color_richness : ℚ := if occurred then intensity * (0.8 + 0.4 * σ (p + 6)) else 0
  let temp := average_temperature d.month + 3 * σ w
  let humidity := average_humidity d.month + 8 * σ (w + 1)
  let pressure := average_pressure d.month + 10 * σ (w + 2)
  let visibility : ℚ :=
    if d.month = 3 ∨ d.month = 4 ∨ d.month = 5 ∨ d.month = 6 then 15 * 0.7 + 3 * σ (w + 3)
    else 15 * 1.1 + 4 * σ (w + 3)
  let wind_speed : ℚ :=
    if d.month = 10 ∨ d.month = 11 ∨ d.month = 12 ∨ d.month = 1 ∨ d.month = 2 then σ (w + 4)
    else σ (w + 4)
  (⟨d, d.year, d.month, dayOfYear d, occurred,
    max 0 (min 10 intensity),
    max 0 (min 120 duration),
    max 0 (min 100 coverage),
    max 0 (min 10 color_richness),
    temp,
    max 0 (min 100 humidity),
    pressure,
    max 1 (min 50 visibility),
    max 0 wind_speed,
    season_factor d.month,
    phE d.year⟩, w + 5)

/-- The generation loop over a date list, threading the stream position. -/
def collectorGen (σ : ℕ → ℚ) (phE phS : ℕ → ℚ) (sy : ℕ) : List Date → ℕ → List Obs
  | [], _ => []
  | d :: ds, p =>
    let r := collectorDay σ phE phS sy p d
    r.1 :: collectorGen σ phE phS sy ds r.2

/-- `generate_realistic_sunset_data(start_year=s, end_year=e)` up to the
DataFrame construction: one row per date of `pd.date_range`, stream starting
at position 0 (the run reseeds with `np.random.seed(42)` first). -/
def collectorDataset (σ : ℕ → ℚ) (phE phS : ℕ → ℚ) (s e : ℕ) : List Obs :=
  collectorGen σ phE phS s (dateRange s e) 0

/-- How a full `generate_realistic_sunset_data` call can terminate.
`missingColumn` is the `KeyError` raised at line 194
(`df['has_sunset_clouds']` on a DataFrame built from an empty list, which has
no columns); `invalidRange` is the up-front validation error the spec calls
for, which no line of the source raises. -/
inductive RunError where
  | missingColumn
  | invalidRange
deriving Repr, DecidableEq

/-- The whole `generate_realistic_sunset_data` call including the reporting
tail (lines 192–203): with a nonempty window the column lookups succeed and
the DataFrame is returned; with an empty window the first reporting line,
`df['has_sunset_clouds'].sum()`, raises the missing-column `KeyError`. -/
def collectorRun (σ : ℕ → ℚ) (phE phS : ℕ → ℚ) (s e : ℕ) : Except RunError (List Obs) :=
  let rows := collectorDataset σ phE phS s e
  if rows.isEmpty then .error .missingColumn else .ok rows

/-! ### Viz pipeline (`hongkong_sunset_clouds.py`, `generate_realistic_data`) -/

/-- One row of the viz pipeline's DataFrame (the dictionary appended to
`data_list` at lines 214–229 of `hongkong_sunset_clouds.py`). -/
structure VizObs where
  date : Date
  year : ℕ
  month : ℕ
  day_of_year : ℕ
  has_sunset_clouds : Bool
  intensity : ℚ
  duration_minutes : ℚ
  coverage_percent : ℚ
  visibility_km : ℚ
  wind_speed_kmh : ℚ
  color_richness : ℚ
  temperature_c : ℚ
  humidity_percent : ℚ
  pressure_hpa : ℚ
deriving Repr, DecidableEq

/-- `realistic_month_prob` of `generate_realistic_data` (same values as the
collector's table, written out separately as in the source). -/
def realistic_month_prob : ℕ → ℚ
  | 1 => 0.25 | 2 => 0.28 | 3 => 0.20 | 4 => 0.15
  | 5 => 0.12 | 6 => 0.08 | 7 => 0.10 | 8 => 0.12
  | 9 => 0.18 | 10 => 0.35 | 11 => 0.40 | 12 => 0.30
  | _ => 0

/-- `avg_temp_by_month[month-1]` of `generate_realistic_data`. -/
def avg_temp_by_month : ℕ → ℚ
  | 1 => 17 | 2 => 18 | 3 => 22 | 4 => 26
  | 5 => 29 | 6 => 31 | 7 => 32 | 8 => 32
  | 9 => 30 | 10 => 27 | 11 => 23 | 12 => 19
  | _ => 0

/-- `avg_humidity_by_month[month-1]` of `generate_realistic_data` (same list
as the collector's humidity table). -/
def avg_humidity_by_month : ℕ → ℚ
  | 1 => 72 | 2 => 78 | 3 => 82 | 4 => 84
  | 5 => 85 | 6 => 83 | 7 => 82 | 8 => 81
  | 9 => 77 | 10 => 73 | 11 => 68 | 12 => 69
  | _ => 0

/-- Lines 146–156 of `hongkong_sunset_clouds.py`: the viz pipeline's per-day
occurrence probability.  `yc` is the value of `sin(2π(year-2000)/7)` and `z`
the standard normal draw behind `daily_random = np.random.normal(0, 0.3)`. -/
def vizProb (y m : ℕ) (yc z : ℚ) : ℚ :=
  let base_prob := realistic_month_prob m
  let year_cycle := yc * 0.1
  let climate_trend : ℚ := 0.02 * ((y : ℚ) - 2000) / 20
  let daily_random := 0.3 * z
  max 0 (min 1 (base_prob + year_cycle + climate_trend + daily_random))

/-- Line 159: the viz pipeline's occurrence test.  Slot `p` is the
probability noise, slot `p + 1` the occurrence uniform. -/
def vizOccurred (σ : ℕ → ℚ) (ph : ℕ → ℚ) (p : ℕ) (d : Date) : Bool :=
  decide (σ (p + 1) < vizProb d.year d.month (ph d.year) (σ p))

/-- Stream position of the day's temperature draw (line 205): the occurred
branch consumes eight draws (beta, uniform, gamma, exponential, beta, normal,
gamma, uniform), the other branch two (normal, gamma). -/
def vizQStart (σ : ℕ → ℚ) (ph : ℕ → ℚ) (p : ℕ) (d : Date) : ℕ :=
  p + (if vizOccurred σ ph p d then 10 else 4)

/-- Lines 141–229 of `hongkong_sunset_clouds.py`: one iteration of the viz
generation loop.  Returns the appended row and the next stream position.
Unlike the collector, visibility and wind speed are sampled inside the
occurred branch (`Normal(15,5)`, seasonally scaled, and a monsoon-dependent
gamma) and inside the other branch with different formulas
(`Normal(12,4)` and `np.random.gamma(2, 3)` always).  As in the collector,
the source's single `if/else` over the branch-dependent attributes is
rendered as one `if` per attribute with the same condition. -/
def vizDay (σ : ℕ → ℚ) (ph : ℕ → ℚ) (p : ℕ) (d : Date) : VizObs × ℕ :=
  let occurred := vizOccurred σ ph p d
  let q := vizQStart σ ph p d
  let intensity : ℚ :=
    if occurred then
      (σ (p + 2) * 10) *
        (if d.month = 10 ∨ d.month = 11 ∨ d.month = 12 ∨ d.month = 1 then 1.1 + 0.3 * σ (p + 3)
         else 0.7 + 0.3 * σ (p + 3))
    else 0
  let duration : ℚ := if occurred then 15 + 20 * σ (p + 5) / σ (p + 4) else 0
  let coverage : ℚ := if occurred then σ (p + 6) * 100 else 0
  let visibility : ℚ :=
    if occurred then
      (if d.month = 3 ∨ d.month = 4 ∨ d.month = 5 ∨ d.month = 6 then (15 + 5 * σ (p + 7)) * 0.7
       else 15 + 5 * σ (p + 7))
    else 12 + 4 * σ (p + 2)
  let wind_speed : ℚ :=
    if occurred then
      (if d.month = 10 ∨ d.month = 11 ∨ d.month = 12 ∨ d.month = 1 ∨ d.month = 2 then σ (p + 8)
       else σ (p + 8))
    else σ (p + 3)
  let color_richness : ℚ := if occurred then intensity * (0.8 + 0.4 * σ (p + 9)) else 0
  let temperature := avg_temp_by_month d.month + 3 * σ q
  let humidity := avg_humidity_by_month d.month + 8 * σ (q + 1)
  let pressure : ℚ := 1013 + 10 * σ (q + 2)
  (⟨d, d.year, d.month, dayOfYear d, occurred,
    max 0 (min 10 intensity),
    max 0 (min 120 duration),
    max 0 (min 100 coverage),
    max 1 (min 50 visibility),
    max 0 wind_speed,
    max 0 (min 10 color_richness),
    temperature,
    max 0 (min 100 humidity),
    pressure⟩, q + 3)

/-- The viz generation loop over a date list (dates fixed to 2000–2020 in the
source; kept general over the enumerated list). -/
def vizGen (σ : ℕ → ℚ) (ph : ℕ → ℚ) : List Date → ℕ → List VizObs
  | [], _ => []
  | d :: ds, p =>
    let r := vizDay σ ph p d
    r.1 :: vizGen σ ph ds r.2

/-! ### Spec-side definition for the seasonal intensity multiplier -/

/-- The seasonal intensity multiplier as §4.3 step 2 of the spec words it,
for comparison with the source's `seasonMult`: `Uniform(1.2,1.5)` for the
months of the autumn and winter season groups, `Uniform(0.6,0.9)` for the
summer months, `Uniform(0.8,1.1)` for the remaining months (`u` again the
unit-uniform draw). -/
def specSeasonMult (m : ℕ) (u : ℚ) : ℚ :=
  if m ∈ autumnMonths ∨ m ∈ winterMonths then 1.2 + 0.3 * u
  else if m ∈ summerMonths then 0.6 + 0.3 * u
  else 0.8 + 0.3 * u

/-! ### Helper lemmas -/

/-- The lower clamp bound: `lo ≤ max lo (min hi x)`. -/
theorem clamp_lower (lo hi x : ℚ) : lo ≤ max lo (min hi x) := le_max_left _ _

/-- The upper clamp bound: `max lo (min hi x) ≤ hi` whenever `lo ≤ hi`. -/
theorem clamp_upper {lo hi : ℚ} (x : ℚ) (h : lo ≤ hi) : max lo (min hi x) ≤ hi :=
  max_le h (min_le_left _ _)

/-- Membership in a month's day list. -/
theorem mem_monthDates {a : Date} {y m : ℕ} :
    a ∈ monthDates y m ↔
      a.year = y ∧ a.month = m ∧ 1 ≤ a.day ∧ a.day ≤ daysInMonth y m := by
  simp only [monthDates, List.mem_map, List.mem_range]
  constructor
  · rintro ⟨i, hi, rfl⟩
    refine ⟨rfl, rfl, ?_, ?_⟩ <;> dsimp only <;> omega
  · rintro ⟨h1, h2, h3, h4⟩
    refine ⟨a.day - 1, by omega, ?_⟩
    have hd : a.day - 1 + 1 = a.day := by omega
    rw [hd, ← h1, ← h2]

/-- Membership in a year's day list. -/
theorem mem_yearDates {a : Date} {y : ℕ} :
    a ∈ yearDates y ↔ a.year = y ∧ validDate a := by
  simp only [yearDates, List.mem_flatMap, List.mem_range]
  constructor
  · rintro ⟨j, hj, ha⟩
    rw [mem_monthDates] at ha
    obtain ⟨hy, hm, hd1, hd2⟩ := ha
    refine ⟨hy, ?_⟩
    unfold validDate
    rw [hy, hm]
    omega
  · rintro ⟨hy, hv⟩
    obtain ⟨h1, h2, h3, h4⟩ := hv
    have hm : a.month - 1 + 1 = a.month := by omega
    refine ⟨a.month - 1, by omega, mem_monthDates.2 ⟨hy, by omega, h3, ?_⟩⟩
    rw [hm, ← hy]
    exact h4

/-- Membership in the enumerated window: exactly the valid dates whose year
lies between the bounds (for an empty window both sides are empty). -/
theorem mem_dateRange {a : Date} {s e : ℕ} :
    a ∈ dateRange s e ↔ validDate a ∧ s ≤ a.year ∧ a.year ≤ e := by
  simp only [dateRange, List.mem_flatMap, List.mem_range]
  constructor
  · rintro ⟨i, hi, ha⟩
    rw [mem_yearDates] at ha
    obtain ⟨hy, hv⟩ := ha
    exact ⟨hv, by omega, by omega⟩
  · rintro ⟨hv, h1, h2⟩
    exact ⟨a.year - s, by omega, mem_yearDates.2 ⟨by omega, hv⟩⟩

/-- The days of a month are listed in strictly increasing date order. -/
theorem pairwise_monthDates (y m : ℕ) : (monthDates y m).Pairwise dateLt := by
  unfold monthDates
  rw [List.pairwise_map]
  refine (List.pairwise_lt_range _).imp ?_
  intro i j h
  exact Or.inr ⟨rfl, Or.inr ⟨rfl, by dsimp only; omega⟩⟩

/-- The days of a year are listed in strictly increasing date order. -/
theorem pairwise_yearDates (y : ℕ) : (yearDates y).Pairwise dateLt := by
  unfold yearDates
  rw [List.pairwise_flatMap]
  refine ⟨fun j _ => pairwise_monthDates y (j + 1), ?_⟩
  refine (List.pairwise_lt_range _).imp ?_
  intro j k hjk x hx x' hx'
  rw [mem_monthDates] at hx hx'
  obtain ⟨hy, hm, -, -⟩ := hx
  obtain ⟨hy', hm', -, -⟩ := hx'
  exact Or.inr ⟨by rw [hy, hy'], Or.inl (by omega)⟩

/-- The whole enumerated window is in strictly increasing date order. -/
theorem pairwise_dateRange (s e : ℕ) : (dateRange s e).Pairwise dateLt := by
  unfold dateRange
  rw [List.pairwise_flatMap]
  refine ⟨fun i _ => pairwise_yearDates (s + i), ?_⟩
  refine (List.pairwise_lt_range _).imp ?_
  intro i j hij x hx x' hx'
  rw [mem_yearDates] at hx hx'
  exact Or.inl (by omega)

/-- The generation loop visits exactly the given dates, in order. -/
theorem collectorGen_map_date (σ phE phS : ℕ → ℚ) (sy : ℕ) (l : List Date) :
    ∀ p : ℕ, (collectorGen σ phE phS sy l p).map Obs.date = l := by
  induction l with
  | nil => intro p; rfl
  | cons d ds ih =>
    intro p
    simp only [collectorGen, List.map_cons, ih]
    exact rfl

/-! ### Claims -/

/-- Claim C1: for every date in the generation window, the occurrence
probability computed by the collector pipeline equals
`clamp(base * season_factor * trend * (1 + 0.1*interannual_phase +
0.05*longperiod_phase + noise), 0, 0.8)` with `base` the month's entry of the
base-probability table and `trend = 1 + 0.01*(year - start_year)/20` (the
phases being the per-date sinusoid values `sin(2π(year-start)/3.5)` and
`sin(2π(year-start)/11)`, abstracted here as the arguments `enso` and
`sunspot`, and `noise = 0.2 * z` the day's Normal(0, 0.2) draw);
consequently the returned probability always lies in `[0, 0.8]`. -/
theorem collectorProb_eq_clamp_and_bounded (sy y m : ℕ) (enso sunspot z : ℚ) :
    collectorProb sy y m enso sunspot z =
      clamp (monthly_sunset_probability m * season_factor m *
        (1 + 0.01 * ((y : ℚ) - (sy : ℚ)) / 20) *
        (1 + 0.1 * enso + 0.05 * sunspot + 0.2 * z)) 0 0.8 ∧
    0 ≤ collectorProb sy y m enso sunspot z ∧
    collectorProb sy y m enso sunspot z ≤ 0.8 := by
  refine ⟨rfl, clamp_lower _ _ _, clamp_upper _ (by norm_num)⟩

set_option maxRecDepth 8000 in
/-- Claim C2: for every `start_year` and `end_year`, the generated Dataset
visits exactly one Observation per calendar day of the inclusive window
(`d` is enumerated iff it is a valid date with `start_year ≤ d.year ≤
end_year`), the dates are strictly increasing with no duplicates, and the
window `start_year = end_year = 2020` (a leap year) yields exactly 366 rows.
(The claim assumes `start_year ≤ end_year`; this statement needs no such
hypothesis — for a reversed window both sides of the membership equivalence
are empty.) -/
theorem collector_calendar_invariant (σ phE phS : ℕ → ℚ) (s e : ℕ) :
    (collectorDataset σ phE phS s e).map Obs.date = dateRange s e ∧
    (∀ d : Date, d ∈ dateRange s e ↔ validDate d ∧ s ≤ d.year ∧ d.year ≤ e) ∧
    (dateRange s e).Pairwise dateLt ∧
    (dateRange s e).Nodup ∧
    (collectorDataset σ phE phS 2020 2020).length = 366 := by
  refine ⟨collectorGen_map_date σ phE phS s _ 0, fun d => mem_dateRange,
    pairwise_dateRange s e, ?_, ?_⟩
  · refine (pairwise_dateRange s e).imp ?_
    intro a b hab heq
    subst heq
    rcases hab with h | ⟨-, h | ⟨-, h⟩⟩ <;> omega
  · have hm := congrArg List.length (collectorGen_map_date σ phE phS 2020 (dateRange 2020 2020) 0)
    rw [List.length_map] at hm
    show (collectorGen σ phE phS 2020 (dateRange 2020 2020) 0).length = 366
    rw [hm]
    decide

/-- Claim C3: every generated collector Observation satisfies the declared
field ranges: intensity in `[0,10]`, duration in `[0,120]`, coverage in
`[0,100]`, color richness in `[0,10]`, humidity in `[0,100]`, visibility in
`[1,50]` and nonnegative wind speed (each field is clamped at construction,
so this holds for arbitrary draw values). -/
theorem collector_field_ranges (σ phE phS : ℕ → ℚ) (sy p : ℕ) (d : Date) :
    0 ≤ (collectorDay σ phE phS sy p d).1.intensity ∧
    (collectorDay σ phE phS sy p d).1.intensity ≤ 10 ∧
    0 ≤ (collectorDay σ phE phS sy p d).1.duration_minutes ∧
    (collectorDay σ phE phS sy p d).1.duration_minutes ≤ 120 ∧
    0 ≤ (collectorDay σ phE phS sy p d).1.coverage_percent ∧
    (collectorDay σ phE phS sy p d).1.coverage_percent ≤ 100 ∧
    0 ≤ (collectorDay σ phE phS sy p d).1.color_richness ∧
    (collectorDay σ phE phS sy p d).1.color_richness ≤ 10 ∧
    0 ≤ (collectorDay σ phE phS sy p d).1.humidity_percent ∧
    (collectorDay σ phE phS sy p d).1.humidity_percent ≤ 100 ∧
    1 ≤ (collectorDay σ phE phS sy p d).1.visibility_km ∧
    (collectorDay σ phE phS sy p d).1.visibility_km ≤ 50 ∧
    0 ≤ (collectorDay σ phE phS sy p d).1.wind_speed_kmh :=
  ⟨clamp_lower _ _ _, clamp_upper _ (by norm_num),
   clamp_lower _ _ _, clamp_upper _ (by norm_num),
   clamp_lower _ _ _, clamp_upper _ (by norm_num),
   clamp_lower _ _ _, clamp_upper _ (by norm_num),
   clamp_lower _ _ _, clamp_upper _ (by norm_num),
   clamp_lower _ _ _, clamp_upper _ (by norm_num),
   le_max_left _ _⟩

/-- Claim C4: two collector generation runs over the same window whose
pseudorandom streams agree slot for slot (i.e. the same seed) produce
identical Datasets, field for field.  The sinusoid phase tables are functions
of the window alone, so the same tables serve both runs. -/
theorem collector_two_run_determinism (σ1 σ2 phE phS : ℕ → ℚ) (s e : ℕ)
    (h : ∀ n, σ1 n = σ2 n) :
    collectorDataset σ1 phE phS s e = collectorDataset σ2 phE phS s e := by
  have hσ : σ1 = σ2 := funext h
  rw [hσ]

/-- Witness for C4 at a concrete stream and window. -/
theorem collector_two_run_determinism_witness :
    collectorDataset (fun _ => 0) (fun _ => 0) (fun _ => 0) 2000 2001 =
      collectorDataset (fun _ => 0) (fun _ => 0) (fun _ => 0) 2000 2001 :=
  collector_two_run_determinism (fun _ => 0) (fun _ => 0) (fun _ => 0) (fun _ => 0)
    2000 2001 (fun _ => rfl)

/-- Claim C5: in both pipelines, an Observation with `occurred = false` has
all four dependent attributes equal to zero (intensity, duration, coverage,
color richness). -/
theorem no_occurrence_zero_attributes :
    (∀ (σ phE phS : ℕ → ℚ) (sy p : ℕ) (d : Date),
      (collectorDay σ phE phS sy p d).1.has_sunset_clouds = false →
        (collectorDay σ phE phS sy p d).1.intensity = 0 ∧
        (collectorDay σ phE phS sy p d).1.duration_minutes = 0 ∧
        (collectorDay σ phE phS sy p d).1.coverage_percent = 0 ∧
        (collectorDay σ phE phS sy p d).1.color_richness = 0) ∧
    (∀ (σ ph : ℕ → ℚ) (p : ℕ) (d : Date),
      (vizDay σ ph p d).1.has_sunset_clouds = false →
        (vizDay σ ph p d).1.intensity = 0 ∧
        (vizDay σ ph p d).1.duration_minutes = 0 ∧
        (vizDay σ ph p d).1.coverage_percent = 0 ∧
        (vizDay σ ph p d).1.color_richness = 0) := by
  constructor
  · intro σ phE phS sy p d h
    have hocc : collectorOccurred σ phE phS sy p d = false := h
    refine ⟨?_, ?_, ?_, ?_⟩ <;> simp [collectorDay, hocc, min_def, max_def]
  · intro σ ph p d h
    have hocc : vizOccurred σ ph p d = false := h
    refine ⟨?_, ?_, ?_, ?_⟩ <;> simp [vizDay, hocc, min_def, max_def]

/-- Witness for C5: a stream whose occurrence draw is 1 (at least the clamped
probability) yields a non-occurred day with all four attributes zero, in both
pipelines. -/
theorem no_occurrence_zero_attributes_witness :
    ((collectorDay (fun _ => 1) (fun _ => 0) (fun _ => 0) 2000 0 ⟨2000, 1, 1⟩).1.intensity = 0 ∧
     (collectorDay (fun _ => 1) (fun _ => 0) (fun _ => 0) 2000 0 ⟨2000, 1, 1⟩).1.duration_minutes = 0 ∧
     (collectorDay (fun _ => 1) (fun _ => 0) (fun _ => 0) 2000 0 ⟨2000, 1, 1⟩).1.coverage_percent = 0 ∧
     (collectorDay (fun _ => 1) (fun _ => 0) (fun _ => 0) 2000 0 ⟨2000, 1, 1⟩).1.color_richness = 0) ∧
    ((vizDay (fun _ => 1) (fun _ => 0) 0 ⟨2000, 1, 1⟩).1.intensity = 0 ∧
     (vizDay (fun _ => 1) (fun _ => 0) 0 ⟨2000, 1, 1⟩).1.duration_minutes = 0 ∧
     (vizDay (fun _ => 1) (fun _ => 0) 0 ⟨2000, 1, 1⟩).1.coverage_percent = 0 ∧
     (vizDay (fun _ => 1) (fun _ => 0) 0 ⟨2000, 1, 1⟩).1.color_richness = 0) := by
  constructor
  · refine no_occurrence_zero_attributes.1 (fun _ => 1) (fun _ => 0) (fun _ => 0) 2000 0 ⟨2000, 1, 1⟩ ?_
    show collectorOccurred (fun _ => 1) (fun _ => 0) (fun _ => 0) 2000 0 ⟨2000, 1, 1⟩ = false
    simp only [collectorOccurred, decide_eq_false_iff_not, not_lt]
    exact le_trans (clamp_upper _ (by norm_num)) (by norm_num)
  · refine no_occurrence_zero_attributes.2 (fun _ => 1) (fun _ => 0) 0 ⟨2000, 1, 1⟩ ?_
    show vizOccurred (fun _ => 1) (fun _ => 0) 0 ⟨2000, 1, 1⟩ = false
    simp only [vizOccurred, decide_eq_false_iff_not, not_lt]
    exact le_trans (clamp_upper _ (by norm_num)) (by norm_num)

/-- Claim C6 (amended): in the collector pipeline all five independent
meteorological fields (temperature, humidity, pressure, visibility, wind
speed) are computed by the same formulas regardless of the occurred outcome:
two runs whose streams agree on the day's five weather slots produce
identical weather fields even when their occurrence outcomes differ.  In the
viz pipeline this holds only for temperature, humidity and pressure (its
three post-branch slots); visibility and wind speed are sampled inside the
occurrence branches with different formulas (see the counterexample). -/
theorem weather_independent_of_occurrence :
    (∀ (σ1 σ2 phE phS : ℕ → ℚ) (sy p1 p2 : ℕ) (d : Date),
      (∀ k, k < 5 →
        σ1 (collectorWStart σ1 phE phS sy p1 d + k) =
        σ2 (collectorWStart σ2 phE phS sy p2 d + k)) →
      (collectorDay σ1 phE phS sy p1 d).1.temperature_c =
        (collectorDay σ2 phE phS sy p2 d).1.temperature_c ∧
      (collectorDay σ1 phE phS sy p1 d).1.humidity_percent =
        (collectorDay σ2 phE phS sy p2 d).1.humidity_percent ∧
      (collectorDay σ1 phE phS sy p1 d).1.pressure_hpa =
        (collectorDay σ2 phE phS sy p2 d).1.pressure_hpa ∧
      (collectorDay σ1 phE phS sy p1 d).1.visibility_km =
        (collectorDay σ2 phE phS sy p2 d).1.visibility_km ∧
      (collectorDay σ1 phE phS sy p1 d).1.wind_speed_kmh =
        (collectorDay σ2 phE phS sy p2 d).1.wind_speed_kmh) ∧
    (∀ (σ1 σ2 ph : ℕ → ℚ) (p1 p2 : ℕ) (d : Date),
      (∀ k, k < 3 →
        σ1 (vizQStart σ1 ph p1 d + k) = σ2 (vizQStart σ2 ph p2 d + k)) →
      (vizDay σ1 ph p1 d).1.temperature_c = (vizDay σ2 ph p2 d).1.temperature_c ∧
      (vizDay σ1 ph p1 d).1.humidity_percent = (vizDay σ2 ph p2 d).1.humidity_percent ∧
      (vizDay σ1 ph p1 d).1.pressure_hpa = (vizDay σ2 ph p2 d).1.pressure_hpa) := by
  constructor
  · intro σ1 σ2 phE phS sy p1 p2 d h
    have h0 : σ1 (collectorWStart σ1 phE phS sy p1 d) =
        σ2 (collectorWStart σ2 phE phS sy p2 d) := h 0 (by omega)
    have h1 := h 1 (by omega)
    have h2 := h 2 (by omega)
    have h3 := h 3 (by omega)
    have h4 := h 4 (by omega)
    refine ⟨?_, ?_, ?_, ?_, ?_⟩
    · show average_temperature d.month + 3 * σ1 (collectorWStart σ1 phE phS sy p1 d) =
        average_temperature d.month + 3 * σ2 (collectorWStart σ2 phE phS sy p2 d)
      rw [h0]
    · show max 0 (min 100 (average_humidity d.month +
          8 * σ1 (collectorWStart σ1 phE phS sy p1 d + 1))) =
        max 0 (min 100 (average_humidity d.month +
          8 * σ2 (collectorWStart σ2 phE phS sy p2 d + 1)))
      rw [h1]
    · show average_pressure d.month + 10 * σ1 (collectorWStart σ1 phE phS sy p1 d + 2) =
        average_pressure d.month + 10 * σ2 (collectorWStart σ2 phE phS sy p2 d + 2)
      rw [h2]
    · show max 1 (min 50 (if d.month = 3 ∨ d.month = 4 ∨ d.month = 5 ∨ d.month = 6 then
          15 * 0.7 + 3 * σ1 (collectorWStart σ1 phE phS sy p1 d + 3)
        else 15 * 1.1 + 4 * σ1 (collectorWStart σ1 phE phS sy p1 d + 3))) =
        max 1 (min 50 (if d.month = 3 ∨ d.month = 4 ∨ d.month = 5 ∨ d.month = 6 then
          15 * 0.7 + 3 * σ2 (collectorWStart σ2 phE phS sy p2 d + 3)
        else 15 * 1.1 + 4 * σ2 (collectorWStart σ2 phE phS sy p2 d + 3)))
      rw [h3]
    · show max 0 (if d.month = 10 ∨ d.month = 11 ∨ d.month = 12 ∨ d.month = 1 ∨ d.month = 2 then
          σ1 (collectorWStart σ1 phE phS sy p1 d + 4)
        else σ1 (collectorWStart σ1 phE phS sy p1 d + 4)) =
        max 0 (if d.month = 10 ∨ d.month = 11 ∨ d.month = 12 ∨ d.month = 1 ∨ d.month = 2 then
          σ2 (collectorWStart σ2 phE phS sy p2 d + 4)
        else σ2 (collectorWStart σ2 phE phS sy p2 d + 4))
      rw [h4]
  · intro σ1 σ2 ph p1 p2 d h
    have h0 : σ1 (vizQStart σ1 ph p1 d) = σ2 (vizQStart σ2 ph p2 d) := h 0 (by omega)
    have h1 := h 1 (by omega)
    have h2 := h 2 (by omega)
    refine ⟨?_, ?_, ?_⟩
    · show avg_temp_by_month d.month + 3 * σ1 (vizQStart σ1 ph p1 d) =
        avg_temp_by_month d.month + 3 * σ2 (vizQStart σ2 ph p2 d)
      rw [h0]
    · show max 0 (min 100 (avg_humidity_by_month d.month + 8 * σ1 (vizQStart σ1 ph p1 d + 1))) =
        max 0 (min 100 (avg_humidity_by_month d.month + 8 * σ2 (vizQStart σ2 ph p2 d + 1)))
      rw [h1]
    · show (1013 : ℚ) + 10 * σ1 (vizQStart σ1 ph p1 d + 2) =
        1013 + 10 * σ2 (vizQStart σ2 ph p2 d + 2)
      rw [h2]

/-- Witness for the amended C6 at concrete equal streams. -/
theorem weather_independent_of_occurrence_witness :
    ((collectorDay (fun _ => 0) (fun _ => 0) (fun _ => 0) 2000 0 ⟨2000, 1, 1⟩).1.temperature_c =
       (collectorDay (fun _ => 0) (fun _ => 0) (fun _ => 0) 2000 0 ⟨2000, 1, 1⟩).1.temperature_c ∧
     (collectorDay (fun _ => 0) (fun _ => 0) (fun _ => 0) 2000 0 ⟨2000, 1, 1⟩).1.humidity_percent =
       (collectorDay (fun _ => 0) (fun _ => 0) (fun _ => 0) 2000 0 ⟨2000, 1, 1⟩).1.humidity_percent ∧
     (collectorDay (fun _ => 0) (fun _ => 0) (fun _ => 0) 2000 0 ⟨2000, 1, 1⟩).1.pressure_hpa =
       (collectorDay (fun _ => 0) (fun _ => 0) (fun _ => 0) 2000 0 ⟨2000, 1, 1⟩).1.pressure_hpa ∧
     (collectorDay (fun _ => 0) (fun _ => 0) (fun _ => 0) 2000 0 ⟨2000, 1, 1⟩).1.visibility_km =
       (collectorDay (fun _ => 0) (fun _ => 0) (fun _ => 0) 2000 0 ⟨2000, 1, 1⟩).1.visibility_km ∧
     (collectorDay (fun _ => 0) (fun _ => 0) (fun _ => 0) 2000 0 ⟨2000, 1, 1⟩).1.wind_speed_kmh =
       (collectorDay (fun _ => 0) (fun _ => 0) (fun _ => 0) 2000 0 ⟨2000, 1, 1⟩).1.wind_speed_kmh) ∧
    ((vizDay (fun _ => 0) (fun _ => 0) 0 ⟨2000, 1, 1⟩).1.temperature_c =
       (vizDay (fun _ => 0) (fun _ => 0) 0 ⟨2000, 1, 1⟩).1.temperature_c ∧
     (vizDay (fun _ => 0) (fun _ => 0) 0 ⟨2000, 1, 1⟩).1.humidity_percent =
       (vizDay (fun _ => 0) (fun _ => 0) 0 ⟨2000, 1, 1⟩).1.humidity_percent ∧
     (vizDay (fun _ => 0) (fun _ => 0) 0 ⟨2000, 1, 1⟩).1.pressure_hpa =
       (vizDay (fun _ => 0) (fun _ => 0) 0 ⟨2000, 1, 1⟩).1.pressure_hpa) :=
  ⟨weather_independent_of_occurrence.1 (fun _ => 0) (fun _ => 0) (fun _ => 0) (fun _ => 0)
      2000 0 0 ⟨2000, 1, 1⟩ (fun _ _ => rfl),
   weather_independent_of_occurrence.2 (fun _ => 0) (fun _ => 0) (fun _ => 0)
      0 0 ⟨2000, 1, 1⟩ (fun _ _ => rfl)⟩

/-- Counterexample to C6 as stated: in the viz pipeline occurrence does gate
ordinary weather.  Two runs on Jan 1 2000 whose streams differ only in the
occurrence slot (slot 1) — in particular they agree on the visibility slots
of both branches (slot 7 for the occurred branch, slot 2 for the other, both
zero) — give visibilities 15 (occurred branch, `Normal(15,5)` formula) and
12 (non-occurred branch, `Normal(12,4)` formula). -/
theorem viz_weather_gated_by_occurrence :
    (fun _ : ℕ => (0 : ℚ)) 7 = (fun n : ℕ => if n = 1 then (1 : ℚ) else 0) 7 ∧
    (fun _ : ℕ => (0 : ℚ)) 2 = (fun n : ℕ => if n = 1 then (1 : ℚ) else 0) 2 ∧
    (vizDay (fun _ => 0) (fun _ => 0) 0 ⟨2000, 1, 1⟩).1.has_sunset_clouds = true ∧
    (vizDay (fun n => if n = 1 then 1 else 0) (fun _ => 0) 0 ⟨2000, 1, 1⟩).1.has_sunset_clouds = false ∧
    (vizDay (fun _ => 0) (fun _ => 0) 0 ⟨2000, 1, 1⟩).1.visibility_km = 15 ∧
    (vizDay (fun n => if n = 1 then 1 else 0) (fun _ => 0) 0 ⟨2000, 1, 1⟩).1.visibility_km = 12 ∧
    (15 : ℚ) ≠ 12 := by
  have hocc1 : vizOccurred (fun _ => 0) (fun _ => 0) 0 ⟨2000, 1, 1⟩ = true := by
    simp only [vizOccurred, decide_eq_true_eq]
    norm_num [vizProb, realistic_month_prob, min_def, max_def]
  have hocc2 : vizOccurred (fun n => if n = 1 then 1 else 0) (fun _ => 0) 0 ⟨2000, 1, 1⟩ = false := by
    simp only [vizOccurred, decide_eq_false_iff_not, not_lt]
    norm_num
    exact le_trans (clamp_upper _ (by norm_num)) (by norm_num)
  refine ⟨by norm_num, by norm_num, hocc1, hocc2, ?_, ?_, by norm_num⟩
  · show max 1 (min 50 (if vizOccurred (fun _ => 0) (fun _ => 0) 0 ⟨2000, 1, 1⟩ = true then _ else _)) = 15
    rw [hocc1]
    norm_num [min_def, max_def]
  · show max 1 (min 50 (if vizOccurred (fun n => if n = 1 then 1 else 0) (fun _ => 0) 0 ⟨2000, 1, 1⟩ = true then _ else _)) = 12
    rw [hocc2]
    norm_num [min_def, max_def]

/-- Counterexample to C7 as stated: September (an autumn-season-group month)
does not receive the `Uniform(1.2,1.5)` multiplier.  On an occurred September
day with Beta draw `1/2` (so `base_intensity = 5`) and uniform draw `0`, the
code's intensity is `5 * 0.8 = 4`, while the spec's autumn/winter multiplier
`Uniform(1.2,1.5)` at draw `0` would give `5 * 1.2 = 6`. -/
theorem seasonMult_not_spec_on_september :
    (9 ∈ autumnMonths ∨ 9 ∈ winterMonths) ∧
    (collectorDay (fun n => if n = 2 then 1/2 else 0) (fun _ => 0) (fun _ => 0)
        2000 0 ⟨2000, 9, 1⟩).1.has_sunset_clouds = true ∧
    (collectorDay (fun n => if n = 2 then 1/2 else 0) (fun _ => 0) (fun _ => 0)
        2000 0 ⟨2000, 9, 1⟩).1.intensity = 4 ∧
    max 0 (min 10 ((((fun n => if n = 2 then (1/2 : ℚ) else 0) 2) * 10) *
      specSeasonMult 9 ((fun n => if n = 2 then (1/2 : ℚ) else 0) 3))) = 6 ∧
    (4 : ℚ) ≠ 6 := by
  have hocc : collectorOccurred (fun n => if n = 2 then 1/2 else 0) (fun _ => 0) (fun _ => 0)
      2000 0 ⟨2000, 9, 1⟩ = true := by
    simp only [collectorOccurred, decide_eq_true_eq]
    norm_num [collectorProb, monthly_sunset_probability, season_factor,
      springMonths, summerMonths, autumnMonths, winterMonths, min_def, max_def]
  refine ⟨by norm_num [autumnMonths, winterMonths], hocc, ?_, ?_, by norm_num⟩
  · show max 0 (min 10 (if collectorOccurred (fun n => if n = 2 then 1/2 else 0)
        (fun _ => 0) (fun _ => 0) 2000 0 ⟨2000, 9, 1⟩ = true then _ else _)) = 4
    rw [hocc]
    norm_num [seasonMult, min_def, max_def]
  · norm_num [specSeasonMult, autumnMonths, winterMonths, min_def, max_def]

/-- Claim C7 (amended): when `occurred = true` the collector's intensity is
`clamp(base_intensity * mult, 0, 10)` where the multiplier `mult` is
`Uniform(1.2,1.5)` for the months `{10, 11, 12, 1}` (not the full
autumn/winter season groups: September and February are excluded),
`Uniform(0.6,0.9)` for the summer months `{6, 7, 8}`, and `Uniform(0.8,1.1)`
for the remaining months `{2, 3, 4, 5, 9}`. -/
theorem seasonal_intensity_multiplier (σ phE phS : ℕ → ℚ) (sy p : ℕ) (d : Date)
    (hocc : (collectorDay σ phE phS sy p d).1.has_sunset_clouds = true)
    (hu0 : 0 ≤ σ (p + 3)) (hu1 : σ (p + 3) ≤ 1) :
    (collectorDay σ phE phS sy p d).1.intensity =
      max 0 (min 10 ((σ (p + 2) * 10) * seasonMult d.month (σ (p + 3)))) ∧
    ((d.month = 10 ∨ d.month = 11 ∨ d.month = 12 ∨ d.month = 1) →
      1.2 ≤ seasonMult d.month (σ (p + 3)) ∧ seasonMult d.month (σ (p + 3)) ≤ 1.5) ∧
    ((d.month = 6 ∨ d.month = 7 ∨ d.month = 8) →
      0.6 ≤ seasonMult d.month (σ (p + 3)) ∧ seasonMult d.month (σ (p + 3)) ≤ 0.9) ∧
    (¬(d.month = 10 ∨ d.month = 11 ∨ d.month = 12 ∨ d.month = 1) →
     ¬(d.month = 6 ∨ d.month = 7 ∨ d.month = 8) →
      0.8 ≤ seasonMult d.month (σ (p + 3)) ∧ seasonMult d.month (σ (p + 3)) ≤ 1.1) := by
  have h : collectorOccurred σ phE phS sy p d = true := hocc
  refine ⟨?_, ?_, ?_, ?_⟩
  · show max 0 (min 10 (if collectorOccurred σ phE phS sy p d = true then
        (σ (p + 2) * 10) * seasonMult d.month (σ (p + 3)) else 0)) =
      max 0 (min 10 ((σ (p + 2) * 10) * seasonMult d.month (σ (p + 3))))
    rw [h, if_pos rfl]
  · intro hm
    rw [seasonMult, if_pos hm]
    constructor <;> linarith
  · intro hm
    have hm' : ¬(d.month = 10 ∨ d.month = 11 ∨ d.month = 12 ∨ d.month = 1) := by
      rcases hm with h6 | h7 | h8 <;> omega
    rw [seasonMult, if_neg hm', if_pos hm]
    constructor <;> linarith
  · intro hm1 hm2
    rw [seasonMult, if_neg hm1, if_neg hm2]
    constructor <;> linarith

/-- Witness for the amended C7: an occurred October day with uniform draw 0
gets multiplier 1.2, inside `[1.2, 1.5]`. -/
theorem seasonal_intensity_multiplier_witness :
    (collectorDay (fun n => if n = 2 then 1/2 else 0) (fun _ => 0) (fun _ => 0)
        2000 0 ⟨2000, 10, 1⟩).1.intensity =
      max 0 (min 10 ((((fun n => if n = 2 then (1/2 : ℚ) else 0) 2) * 10) *
        seasonMult 10 ((fun n => if n = 2 then (1/2 : ℚ) else 0) 3))) ∧
    1.2 ≤ seasonMult 10 ((fun n => if n = 2 then (1/2 : ℚ) else 0) 3) ∧
    seasonMult 10 ((fun n => if n = 2 then (1/2 : ℚ) else 0) 3) ≤ 1.5 := by
  have hocc : collectorOccurred (fun n => if n = 2 then 1/2 else 0) (fun _ => 0) (fun _ => 0)
      2000 0 ⟨2000, 10, 1⟩ = true := by
    simp only [collectorOccurred, decide_eq_true_eq]
    norm_num [collectorProb, monthly_sunset_probability, season_factor,
      springMonths, summerMonths, autumnMonths, winterMonths, min_def, max_def]
  have h := seasonal_intensity_multiplier (fun n => if n = 2 then 1/2 else 0)
    (fun _ => 0) (fun _ => 0) 2000 0 ⟨2000, 10, 1⟩ hocc (by norm_num) (by norm_num)
  exact ⟨h.1, (h.2.1 (Or.inl rfl)).1, (h.2.1 (Or.inl rfl)).2⟩

/-- Counterexample to C8 as stated: on the reversed window `(2001, 2000)` the
source raises no up-front validation error; the run reaches the reporting
tail and dies there with the missing-column `KeyError` (line 194 on an empty
DataFrame), i.e. the result is not the `invalidRange` outcome a validating
implementation would produce. -/
theorem reversed_window_no_validation_error :
    collectorRun (fun _ => 0) (fun _ => 0) (fun _ => 0) 2001 2000 =
      Except.error RunError.missingColumn ∧
    collectorRun (fun _ => 0) (fun _ => 0) (fun _ => 0) 2001 2000 ≠
      Except.error RunError.invalidRange := by
  constructor
  · rfl
  · intro h
    rw [show collectorRun (fun _ => 0) (fun _ => 0) (fun _ => 0) 2001 2000 =
        Except.error RunError.missingColumn from rfl] at h
    exact RunError.noConfusion (Except.error.inj h)

/-- Claim C8 (amended): for every malformed range (`end_year < start_year`,
the only way to get an empty window at year granularity) the generated date
range is empty, no sampling is consumed, and the run fails with the
missing-column error from the reporting tail instead of returning a dataset
— so an empty or reversed dataset is never returned, but the failure is a
`KeyError` during reporting, not an up-front validation error. -/
theorem reversed_window_fails (σ phE phS : ℕ → ℚ) (s e : ℕ) (h : e < s) :
    dateRange s e = [] ∧
    collectorRun σ phE phS s e = Except.error RunError.missingColumn := by
  have hr : dateRange s e = [] := by
    unfold dateRange
    rw [show e + 1 - s = 0 by omega]
    rfl
  refine ⟨hr, ?_⟩
  unfold collectorRun collectorDataset
  rw [hr]
  rfl

/-- Witness for the amended C8 at the concrete reversed window (2005, 2003). -/
theorem reversed_window_fails_witness :
    dateRange 2005 2003 = [] ∧
    collectorRun (fun _ => 0) (fun _ => 0) (fun _ => 0) 2005 2003 =
      Except.error RunError.missingColumn :=
  reversed_window_fails (fun _ => 0) (fun _ => 0) (fun _ => 0) 2005 2003 (by omega)

/-- Claim C9: the two pipelines are not equivalent.  The collector computes
the occurrence probability multiplicatively and clamps to `[0, 0.8]`; the viz
pipeline computes it additively and clamps to `[0, 1]`; and they disagree on
a concrete input: November of the start year 2000 (where all sinusoid phases
are genuinely `sin 0 = 0`) with a zero noise draw gives `0.40 * 1.2 = 0.48`
multiplicatively but `0.40 + 0 + 0 + 0 = 0.40` additively. -/
theorem pipelines_divergent :
    (∀ (sy y m : ℕ) (enso sunspot z : ℚ),
      collectorProb sy y m enso sunspot z =
        clamp (monthly_sunset_probability m * season_factor m *
          (1 + 0.01 * ((y : ℚ) - (sy : ℚ)) / 20) *
          (1 + 0.1 * enso + 0.05 * sunspot + 0.2 * z)) 0 0.8) ∧
    (∀ (y m : ℕ) (yc z : ℚ),
      vizProb y m yc z =
        clamp (realistic_month_prob m + yc * 0.1 +
          0.02 * ((y : ℚ) - 2000) / 20 + 0.3 * z) 0 1) ∧
    collectorProb 2000 2000 11 0 0 0 = 0.48 ∧
    vizProb 2000 11 0 0 = 0.40 ∧
    collectorProb 2000 2000 11 0 0 0 ≠ vizProb 2000 11 0 0 := by
  refine ⟨fun sy y m enso sunspot z => rfl, fun y m yc z => rfl, ?_, ?_, ?_⟩
  · norm_num [collectorProb, monthly_sunset_probability, season_factor,
      springMonths, summerMonths, autumnMonths, winterMonths, min_def, max_def]
  · norm_num [vizProb, realistic_month_prob, min_def, max_def]
  · norm_num [collectorProb, vizProb, monthly_sunset_probability,
      realistic_month_prob, season_factor, springMonths, summerMonths,
      autumnMonths, winterMonths, min_def, max_def]

/-- Claim C10: in both generators, an occurred day's duration lies in
`[15, 120]` — the lower bound is 15, not the declared 0, because duration is
`15` plus a nonnegative term (`Exponential(25)` in the collector;
`Exponential(20)/Gamma(2,1)` in the viz pipeline, the gamma draw being
positive) before the `[0, 120]` clamp. -/
theorem occurred_duration_bounds :
    (∀ (σ phE phS : ℕ → ℚ) (sy p : ℕ) (d : Date),
      (collectorDay σ phE phS sy p d).1.has_sunset_clouds = true →
      0 ≤ σ (p + 4) →
      15 ≤ (collectorDay σ phE phS sy p d).1.duration_minutes ∧
      (collectorDay σ phE phS sy p d).1.duration_minutes ≤ 120) ∧
    (∀ (σ ph : ℕ → ℚ) (p : ℕ) (d : Date),
      (vizDay σ ph p d).1.has_sunset_clouds = true →
      0 ≤ σ (p + 5) → 0 < σ (p + 4) →
      15 ≤ (vizDay σ ph p d).1.duration_minutes ∧
      (vizDay σ ph p d).1.duration_minutes ≤ 120) := by
  constructor
  · intro σ phE phS sy p d hocc he
    have h : collectorOccurred σ phE phS sy p d = true := hocc
    have hd : (collectorDay σ phE phS sy p d).1.duration_minutes =
        max 0 (min 120 (15 + 25 * σ (p + 4))) := by
      show max 0 (min 120 (if collectorOccurred σ phE phS sy p d = true then
        15 + 25 * σ (p + 4) else 0)) = _
      rw [h, if_pos rfl]
    rw [hd]
    constructor
    · exact le_trans (le_min (by norm_num) (by linarith)) (le_max_right _ _)
    · exact clamp_upper _ (by norm_num)
  · intro σ ph p d hocc he hg
    have h : vizOccurred σ ph p d = true := hocc
    have hd : (vizDay σ ph p d).1.duration_minutes =
        max 0 (min 120 (15 + 20 * σ (p + 5) / σ (p + 4))) := by
      show max 0 (min 120 (if vizOccurred σ ph p d = true then
        15 + 20 * σ (p + 5) / σ (p + 4) else 0)) = _
      rw [h, if_pos rfl]
    have hq : 0 ≤ 20 * σ (p + 5) / σ (p + 4) := div_nonneg (by linarith) (le_of_lt hg)
    rw [hd]
    constructor
    · exact le_trans (le_min (by norm_num) (by linarith)) (le_max_right _ _)
    · exact clamp_upper _ (by norm_num)

/-- Witness for C10: concrete occurred days in both pipelines with zero
exponential draw and (for the viz pipeline) gamma draw 1, giving duration
exactly 15. -/
theorem occurred_duration_bounds_witness :
    (15 ≤ (collectorDay (fun _ => 0) (fun _ => 0) (fun _ => 0) 2000 0 ⟨2000, 1, 1⟩).1.duration_minutes ∧
     (collectorDay (fun _ => 0) (fun _ => 0) (fun _ => 0) 2000 0 ⟨2000, 1, 1⟩).1.duration_minutes ≤ 120) ∧
    (15 ≤ (vizDay (fun n => if n = 4 then 1 else 0) (fun _ => 0) 0 ⟨2000, 1, 1⟩).1.duration_minutes ∧
     (vizDay (fun n => if n = 4 then 1 else 0) (fun _ => 0) 0 ⟨2000, 1, 1⟩).1.duration_minutes ≤ 120) := by
  constructor
  · refine occurred_duration_bounds.1 (fun _ => 0) (fun _ => 0) (fun _ => 0) 2000 0 ⟨2000, 1, 1⟩ ?_ (by norm_num)
    show collectorOccurred (fun _ => 0) (fun _ => 0) (fun _ => 0) 2000 0 ⟨2000, 1, 1⟩ = true
    simp only [collectorOccurred, decide_eq_true_eq]
    norm_num [collectorProb, monthly_sunset_probability, season_factor,
      springMonths, summerMonths, autumnMonths, winterMonths, min_def, max_def]
  · refine occurred_duration_bounds.2 (fun n => if n = 4 then 1 else 0) (fun _ => 0) 0 ⟨2000, 1, 1⟩ ?_ (by norm_num) (by norm_num)
    show vizOccurred (fun n => if n = 4 then 1 else 0) (fun _ => 0) 0 ⟨2000, 1, 1⟩ = true
    simp only [vizOccurred, decide_eq_true_eq]
    norm_num [vizProb, realistic_month_prob, min_def, max_def]
